import Mathlib

/-!
Shallow embedding of the outbound-call orchestration dashboard:
the dispatch endpoint (src/app/api/call/route.ts) and the client page
(src/app/page.tsx): validators, delay computation, markup builder,
script templater, history store.
-/

namespace CallingAgent

/-- A request body after JSON decoding, with the raw field shapes the
schemas inspect (optional fields as `Option String`). -/
structure RawBody where
  contactName : String
  phoneNumber : String
  objective : String
  scriptStyle : String
  scheduledAt : Option String
  notes : Option String
deriving DecidableEq, Repr

/-- Membership of the scriptStyle enumeration
{friendly, direct, consultative}. -/
def isStyleString (s : String) : Bool :=
  s = "friendly" || s = "direct" || s = "consultative"

/-- Decimal digit test. -/
def isDigitCh (c : Char) : Bool :=
  '0' ≤ c && c ≤ '9'

/-- The phone-number pattern of both schemas: an optional leading plus,
a first digit 1-9, then 7 to 14 further digits, anchored on both ends. -/
def phoneRegexMatch (s : String) : Bool :=
  let cs := s.data
  let cs := if cs.head? = some '+' then cs.tail else cs
  match cs with
  | [] => false
  | c :: rest =>
      ('1' ≤ c && c ≤ '9') && rest.all isDigitCh &&
        decide (7 ≤ rest.length) && decide (rest.length ≤ 14)

def digitVal (c : Char) : Option Nat :=
  if isDigitCh c then some (c.toNat - '0'.toNat) else none

def twoDigits (a b : Char) : Option Nat := do
  let x ← digitVal a
  let y ← digitVal b
  pure (10 * x + y)

def isLeapYear (y : Nat) : Bool :=
  (y % 4 = 0 && y % 100 ≠ 0) || y % 400 = 0

def daysInMonth (y m : Nat) : Nat :=
  if m = 2 then (if isLeapYear y then 29 else 28)
  else if m = 4 || m = 6 || m = 9 || m = 11 then 30
  else 31

/-- One or more characters ending in a final Z, all of them digits
except that terminating Z. -/
def digitsThenZ : List Char → Bool
  | [] => false
  | ['Z'] => true
  | c :: rest => isDigitCh c && digitsThenZ rest

/-- The tail of a strict ISO datetime after the seconds field: either a
lone Z, or a dot, at least one fractional digit, and a final Z. -/
def isoTail : List Char → Bool
  | ['Z'] => true
  | '.' :: rest =>
      (match rest with
       | c :: _ => isDigitCh c
       | [] => false) && digitsThenZ rest
  | _ => false

/-- Modelled from the spec: the server schema requires the schedule
timestamp to be a strict ISO 8601 datetime (the schema-validation
library enforcing this is not part of src/). Shape
YYYY-MM-DDTHH:MM:SS(.fraction)?Z with in-range month, day (leap-year
aware), hour, minute and second. -/
def isStrictIso (s : String) : Bool :=
  match s.data with
  | y1 :: y2 :: y3 :: y4 :: '-' :: m1 :: m2 :: '-' :: d1 :: d2 :: 'T' ::
      h1 :: h2 :: ':' :: mi1 :: mi2 :: ':' :: s1 :: s2 :: rest =>
    match twoDigits y1 y2, twoDigits y3 y4, twoDigits m1 m2, twoDigits d1 d2,
        twoDigits h1 h2, twoDigits mi1 mi2, twoDigits s1 s2 with
    | some yh, some yl, some mo, some da, some ho, some mi, some se =>
        let y := 100 * yh + yl
        decide (1 ≤ mo) && decide (mo ≤ 12) && decide (1 ≤ da) &&
          decide (da ≤ daysInMonth y mo) && decide (ho ≤ 23) &&
          decide (mi ≤ 59) && decide (se ≤ 59) && isoTail rest
    | _, _, _, _, _, _, _ => false
  | _ => false

/-- The client-side schema (page.tsx callRequestSchema): contactName at
least 2 characters, phoneNumber matching the regex, objective at least
3 characters, scriptStyle in the enumeration; scheduledAt and notes are
arbitrary optional strings. -/
def clientValidate (b : RawBody) : Bool :=
  decide (2 ≤ b.contactName.length) && phoneRegexMatch b.phoneNumber &&
    decide (3 ≤ b.objective.length) && isStyleString b.scriptStyle

/-- The server-side schema (route.ts requestSchema): contactName at
least 1 character, phoneNumber matching the regex, objective at least
1 character, scriptStyle in the enumeration, scheduledAt (when present)
a strict ISO datetime; notes an arbitrary optional string. -/
def serverValidate (b : RawBody) : Bool :=
  decide (1 ≤ b.contactName.length) && phoneRegexMatch b.phoneNumber &&
    decide (1 ≤ b.objective.length) && isStyleString b.scriptStyle &&
    (match b.scheduledAt with
     | some s => isStrictIso s
     | none => true)

/-- Deployment environment variables read by the endpoint. -/
structure Env where
  accountSid : Option String
  authToken : Option String
  fromNumber : Option String
  statusWebhook : Option String
deriving DecidableEq, Repr

/-- Outcome of the external provider's call-creation API. -/
inductive ProviderResult where
  | ok (sid : String)
  | err (msg : Option String)
deriving DecidableEq, Repr

/-- What the endpoint produces: the HTTP status and JSON body fields of
its response, plus whether the provider's call-creation API was invoked
and, when it was, the markup handed to it. -/
structure PostOutcome where
  httpStatus : Nat
  success : Bool
  message : String
  callSid : Option String
  callStatus : Option String
  providerCalled : Bool
  providerTwiml : Option String
deriving DecidableEq, Repr

/-- Truthiness of an optional environment string: undefined and the
empty string are falsy. -/
def optTruthy : Option String → Bool
  | none => false
  | some s => s ≠ ""

/-- Truthiness of all three required credentials at once. -/
def envTruthy (env : Env) : Bool :=
  optTruthy env.accountSid && optTruthy env.authToken &&
    optTruthy env.fromNumber

/-- The scheduleTime value: undefined when no scheduledAt was sent
(outer none), NaN when parsing failed (inner none), else a number of
epoch milliseconds. -/
def scheduleTimeOf (dp : String → Option Int) (scheduledAt : Option String) :
    Option (Option Int) :=
  scheduledAt.map dp

/-- Truthiness of scheduleTime: undefined, NaN and 0 are all falsy. -/
def schedTruthy : Option (Option Int) → Bool
  | some (some t) => t ≠ 0
  | _ => false

/-- Number.isNaN applied to scheduleTime. -/
def schedIsNaN : Option (Option Int) → Bool
  | some none => true
  | _ => false

/-- The delaySeconds computation of the endpoint: when scheduleTime is
truthy and greater than now, the floor of the millisecond gap divided
by 1000, otherwise 0. -/
def delaySecondsOf (dp : String → Option Int) (now : Int)
    (scheduledAt : Option String) : Nat :=
  match scheduleTimeOf dp scheduledAt with
  | some (some t) => if t ≠ 0 ∧ now < t then (t - now).toNat / 1000 else 0
  | _ => 0

/-- The style-indexed sign-off table of the endpoint. -/
def styleSignOff (s : String) : String :=
  if s = "friendly" then
    "Thanks again for taking the time today. Looking forward to connecting soon!"
  else if s = "direct" then
    "Please confirm if we can proceed, or let me know the best decision maker to engage."
  else
    "I appreciate your insights. Let\x27s align on the best path forward together."

/-- Global single-character replacement, the effect of one
replace-with-regex pass over the characters of the value. -/
def repChar (c : Char) (r : List Char) : List Char → List Char
  | [] => []
  | d :: l => (if d = c then r else [d]) ++ repChar c r l

/-- escapeForTwiml of the endpoint: four sequential global replacement
passes, ampersand first, then angle brackets, then the double quote. -/
def escapeForTwiml (value : String) : String :=
  String.mk (repChar '"' "&quot;".data
    (repChar '>' "&gt;".data
      (repChar '<' "&lt;".data
        (repChar '&' "&amp;".data value.data))))

/-- buildTwiml of the endpoint: optional leading pause element, one Say
element per line with its text escaped, and a final hangup, inside one
Response envelope. -/
def buildTwiml (lines : List String) (delaySeconds : Nat) : String :=
  let voice := "Polly.Joanna"
  let pause :=
    if delaySeconds ≠ 0 then
      "<Pause length=\"" ++ toString (min delaySeconds 600) ++ "\" />"
    else ""
  let sayBlocks := String.join (lines.map (fun line =>
    "<Say voice=\"" ++ voice ++ "\">" ++ escapeForTwiml line ++ "</Say>"))
  "<Response>" ++ pause ++ sayBlocks ++ "<Hangup/></Response>"

/-- The spoken segments the endpoint builds: introduction, objective,
an optional notes line (dropped when notes is absent or empty, the
filter-Boolean step), and the style sign-off. -/
def spokenSegments (b : RawBody) : List String :=
  ["Hi " ++ b.contactName ++ ", this is your automated outreach agent calling from our team.",
   "Objective for today: " ++ b.objective ++ "."]
  ++ (match b.notes with
      | some n => if n ≠ "" then ["Notes from the team: " ++ n ++ "."] else []
      | none => [])
  ++ [styleSignOff b.scriptStyle]

/-- The POST handler of route.ts. dp stands for the runtime date
parser (none encodes NaN), body for the decoded JSON (none when
decoding or schema validation would see no object), provider for the
outcome of the external call-creation API. -/
def POST (dp : String → Option Int) (env : Env) (now : Int)
    (body : Option RawBody) (provider : ProviderResult) : PostOutcome :=
  match body with
  | none =>
      { httpStatus := 400, success := false, message := "Invalid payload",
        callSid := none, callStatus := none,
        providerCalled := false, providerTwiml := none }
  | some b =>
    if serverValidate b = false then
      { httpStatus := 400, success := false, message := "Invalid payload",
        callSid := none, callStatus := none,
        providerCalled := false, providerTwiml := none }
    else if envTruthy env = false then
      { httpStatus := 500, success := false,
        message := "Twilio credentials are missing. Set TWILIO_ACCOUNT_SID, TWILIO_AUTH_TOKEN, and TWILIO_FROM_NUMBER.",
        callSid := none, callStatus := none,
        providerCalled := false, providerTwiml := none }
    else
      let st := scheduleTimeOf dp b.scheduledAt
      if schedTruthy st && schedIsNaN st then
        { httpStatus := 400, success := false,
          message := "scheduledAt must be a valid ISO date string.",
          callSid := none, callStatus := none,
          providerCalled := false, providerTwiml := none }
      else
        let delay := delaySecondsOf dp now b.scheduledAt
        if 600 < delay then
          { httpStatus := 422, success := false,
            message := "Scheduling more than 10 minutes ahead is not supported by this serverless worker.",
            callSid := none, callStatus := none,
            providerCalled := false, providerTwiml := none }
        else
          let twiml := buildTwiml (spokenSegments b) delay
          match provider with
          | .ok sid =>
              { httpStatus := 200, success := true,
                message :=
                  if delay ≠ 0 then
                    "Call scheduled in " ++ toString delay ++ " seconds."
                  else "Call initiated successfully.",
                callSid := some sid,
                callStatus := some (if delay ≠ 0 then "queued" else "in-progress"),
                providerCalled := true, providerTwiml := some twiml }
          | .err m =>
              { httpStatus := 502, success := false,
                message :=
                  match m with
                  | some t => "Twilio error: " ++ t
                  | none => "Unknown error while creating Twilio call.",
                callSid := none, callStatus := none,
                providerCalled := true, providerTwiml := some twiml }

/-- The scriptStyle enumeration as the client page's type. -/
inductive ScriptStyle where
  | friendly
  | direct
  | consultative
deriving DecidableEq, Repr

/-- One entry of the client page's stylePresets table. -/
structure StylePreset where
  heading : String
  tone : String
  closing : String
deriving DecidableEq, Repr

/-- The stylePresets table of page.tsx. -/
def stylePresets : ScriptStyle → StylePreset
  | .friendly =>
      { heading := "Warm introduction",
        tone := "Conversational tone, emphasize rapport building and value.",
        closing := "Thank them for their time and confirm next steps with a positive note." }
  | .direct =>
      { heading := "Concise opener",
        tone := "To-the-point delivery, focus on clear ROI and decision making.",
        closing := "Ask directly for commitment and provide a clear channel for follow-up." }
  | .consultative =>
      { heading := "Insight-led opening",
        tone := "Empathetic, question-driven tone highlighting tailored insights.",
        closing := "Summarize diagnosed needs and recommend a collaborative next step." }

/-- The form state held by the page component: every text field is a
string (the optional fields are initialised to the empty string). -/
structure ClientForm where
  contactName : String
  phoneNumber : String
  objective : String
  scriptStyle : ScriptStyle
  scheduledAt : String
  notes : String
deriving DecidableEq, Repr

/-- The logical-or fallback on strings: the left operand unless it is
the empty string. -/
def jsOrStr (a b : String) : String :=
  if a = "" then b else a

/-- generateScript of page.tsx: the template-literal segments (their
label characters reproduced byte-for-byte from the source), the
conditional notes segment, filtering of the skipped entry, and the
blank-line join. -/
def generateScript (form : ClientForm) : String :=
  let segments : List (Option String) :=
    [some ("üëã Intro\n\"Hi " ++ jsOrStr form.contactName "there" ++
        ", this is your outreach agent calling on behalf of our team. Do you have a quick minute to talk?\""),
     some ("üéØ Objective\n\"" ++
        jsOrStr form.objective "I\x27d love to share why I\x27m reaching out and explore how we can collaborate." ++ "\""),
     some ("üß† Tone\n" ++ (stylePresets form.scriptStyle).tone),
     some ("üó∫Ô∏è Flow\n1. Establish rapport and confirm context.\n2. Share key value proposition tailored to the contact.\n3. Ask one high-impact question to surface needs.\n4. Offer next step aligned with the objective.\n5. Confirm best follow-up channel and availability."),
     some ("‚úÖ Closing\n" ++ (stylePresets form.scriptStyle).closing),
     if form.notes ≠ "" then
       some ("üìù Notes from you\n" ++ form.notes)
     else none]
  String.intercalate "\n\n" (segments.filterMap id)

/-- One history entry as stored by the page: the submitted payload plus
the client-generated bookkeeping fields. -/
structure CallLog where
  contactName : String
  phoneNumber : String
  objective : String
  scriptStyle : ScriptStyle
  scheduledAt : Option String
  notes : Option String
  id : String
  status : String
  createdAt : String
  message : Option String
  confirmationSid : Option String
deriving DecidableEq, Repr

/-- The submit path's history update: prepend the new entry and keep
the first 20 elements. -/
def appendLog (log : List CallLog) (entry : CallLog) : List CallLog :=
  (entry :: log).take 20

/-- The persistence effect that runs after each history change: the
list is serialized to local storage only when it is non-empty,
otherwise the previously persisted value is left untouched. -/
def persistAfterChange (mem : List CallLog) (persisted : Option (List CallLog)) :
    Option (List CallLog) :=
  if mem.length ≠ 0 then some mem else persisted

/-- The clear button's handler: replace the in-memory list by the
empty list. -/
def clearLog (_log : List CallLog) : List CallLog := []

/-- The form update performed after a dispatch response: on success,
notes and scheduledAt are reset to the empty string and the other
fields copied over; on failure the form is left as it was. -/
def formAfterResponse (success : Bool) (f : ClientForm) : ClientForm :=
  if success then
    { f with notes := "", objective := f.objective, scheduledAt := "" }
  else f

/-- Spec reading of the escaping rule: each of the four special
characters becomes its entity form, every other character stands
alone. -/
def entityOf (c : Char) : String :=
  if c = '&' then "&amp;"
  else if c = '<' then "&lt;"
  else if c = '>' then "&gt;"
  else if c = '"' then "&quot;"
  else String.mk [c]

/-- Spec reading of an escaped segment: the per-character entity
substitutions concatenated in order. -/
def escapedSpec (s : String) : String :=
  String.mk (s.data.flatMap (fun c => (entityOf c).data))

/-- Spec reading of a spoken-text element. -/
def sayElemSpec (l : String) : String :=
  "<Say voice=\"Polly.Joanna\">" ++ escapedSpec l ++ "</Say>"

/-- Spec reading of the leading pause element with its bounded
length. -/
def pauseElemSpec (n : Nat) : String :=
  "<Pause length=\"" ++ toString n ++ "\" />"

/-- Spec reading of the whole markup document: a single envelope
holding the optional pause (present exactly when the delay is
nonzero, bounded to 600), one spoken-text element per segment, and the
terminating hangup element. -/
def twimlSpec (lines : List String) (d : Nat) : String :=
  "<Response>" ++
    (if d = 0 then "" else pauseElemSpec (min d 600)) ++
    String.join (lines.map sayElemSpec) ++
    "<Hangup/></Response>"

/-- Spec reading of the preview script segments: introduction with its
blank-name fallback, objective with its blank-objective fallback, tone
from the preset, the fixed five-step flow, the preset closing, and a
notes segment only when notes are non-blank. -/
def scriptSegmentsSpec (form : ClientForm) : List String :=
  ["üëã Intro\n\"Hi " ++
      (if form.contactName = "" then "there" else form.contactName) ++
      ", this is your outreach agent calling on behalf of our team. Do you have a quick minute to talk?\"",
   "üéØ Objective\n\"" ++
      (if form.objective = "" then
        "I\x27d love to share why I\x27m reaching out and explore how we can collaborate."
      else form.objective) ++ "\"",
   "üß† Tone\n" ++ (stylePresets form.scriptStyle).tone,
   "üó∫Ô∏è Flow\n1. Establish rapport and confirm context.\n2. Share key value proposition tailored to the contact.\n3. Ask one high-impact question to surface needs.\n4. Offer next step aligned with the objective.\n5. Confirm best follow-up channel and availability.",
   "‚úÖ Closing\n" ++ (stylePresets form.scriptStyle).closing] ++
  (if form.notes = "" then [] else ["üìù Notes from you\n" ++ form.notes])

/-- A concrete history entry used as a test vector. -/
def sampleLog : CallLog :=
  { contactName := "Jo", phoneNumber := "+15551234567",
    objective := "Confirm meeting", scriptStyle := .direct,
    scheduledAt := none, notes := none,
    id := "id-1", status := "in-progress",
    createdAt := "2026-10-11T09:00:00.000Z",
    message := some "Call initiated successfully.",
    confirmationSid := some "CA1" }

/-- A fully configured environment used as a test vector. -/
def envOk : Env :=
  { accountSid := some "AC123", authToken := some "token",
    fromNumber := some "+15550000000", statusWebhook := none }

/-- A schema-valid immediate request body used as a test vector. -/
def bodyOk : RawBody :=
  { contactName := "Jo", phoneNumber := "+15551234567",
    objective := "Confirm meeting", scriptStyle := "direct",
    scheduledAt := none, notes := none }

/-- The same body with a strict ISO schedule timestamp. -/
def bodySched : RawBody :=
  { bodyOk with scheduledAt := some "2026-10-11T12:00:00Z" }

/-! Theorems. -/

/-- C10: after a success response the submit handler resets exactly
notes and scheduledAt to the empty string while contactName,
phoneNumber, objective and scriptStyle keep their values; after a
failure response the whole form is unchanged. -/
theorem claim_c10_theorem (f : ClientForm) :
    (formAfterResponse true f).contactName = f.contactName ∧
    (formAfterResponse true f).phoneNumber = f.phoneNumber ∧
    (formAfterResponse true f).objective = f.objective ∧
    (formAfterResponse true f).scriptStyle = f.scriptStyle ∧
    (formAfterResponse true f).notes = "" ∧
    (formAfterResponse true f).scheduledAt = "" ∧
    formAfterResponse false f = f := by
  simp [formAfterResponse]

/-- Lower-level fact about the history fold: appending at least one
entry leaves exactly the 20 most recent entries, newest first. -/
theorem foldl_appendLog (es : List CallLog) (init : List CallLog)
    (h : es ≠ []) :
    List.foldl appendLog init es = (es.reverse ++ init).take 20 := by
  induction es generalizing init with
  | nil => exact absurd rfl h
  | cons e tl ih =>
    rcases Decidable.em (tl = []) with htl | htl
    · subst htl
      simp [appendLog]
    · rw [List.foldl_cons, ih (appendLog init e) htl]
      show (tl.reverse ++ (e :: init).take 20).take 20 = _
      rw [List.take_append_eq_append_take, List.take_take,
        Nat.min_eq_left (Nat.sub_le _ _),
        ← List.take_append_eq_append_take]
      simp

/-- C6: after any positive number of entries appended via the submit
path, the history list is the 20-element cap of the appended entries
(newest first) in front of the previous contents; in particular its
length never exceeds 20. -/
theorem claim_c6_theorem (init es : List CallLog) (h : es ≠ []) :
    List.foldl appendLog init es = (es.reverse ++ init).take 20 ∧
    (List.foldl appendLog init es).length ≤ 20 := by
  refine ⟨foldl_appendLog es init h, ?_⟩
  rw [foldl_appendLog es init h]
  simp

/-- C6 witness: the cap holds on a concrete append. -/
theorem claim_c6_witness :
    List.foldl appendLog [] [sampleLog] =
      (([sampleLog] : List CallLog).reverse ++ []).take 20 ∧
    (List.foldl appendLog ([] : List CallLog) [sampleLog]).length ≤ 20 :=
  claim_c6_theorem [] [sampleLog] (by decide)

/-- C1 counterexample: clearing a one-entry history empties the
in-memory list, but the persistence effect skips the empty list, so
the persisted copy still holds the cleared entry and is not the empty
list. -/
theorem claim_c1_counterexample :
    clearLog [sampleLog] = [] ∧
    persistAfterChange (clearLog [sampleLog]) (some [sampleLog]) =
      some [sampleLog] ∧
    persistAfterChange (clearLog [sampleLog]) (some [sampleLog]) ≠
      some [] := by
  refine ⟨rfl, rfl, by decide⟩

/-- C1 amended: the store serializes the full list on every change
that leaves it non-empty; a change to the empty list (in particular
the clear operation) leaves the persisted copy untouched, so cleared
entries are still persisted and reappear on reload. -/
theorem claim_c1_theorem (mem : List CallLog)
    (persisted : Option (List CallLog)) :
    (mem ≠ [] → persistAfterChange mem persisted = some mem) ∧
    persistAfterChange [] persisted = persisted ∧
    persistAfterChange (clearLog mem) persisted = persisted := by
  refine ⟨fun h => ?_, rfl, rfl⟩
  unfold persistAfterChange
  simp [List.length_eq_zero, h]

/-- C1 witness: the amended behaviour at a concrete store. -/
theorem claim_c1_witness :
    persistAfterChange [sampleLog] (some []) = some [sampleLog] ∧
    persistAfterChange (clearLog [sampleLog]) (some []) = some [] :=
  ⟨(claim_c1_theorem [sampleLog] (some [])).1 (by decide),
   (claim_c1_theorem [sampleLog] (some [])).2.2⟩

/-- C4 counterexample: a body whose contactName has only 1 character
(shorter than 2) is accepted by the server validator, so the two
validators do not enforce the same rules and the server does not
reject every such input. -/
theorem claim_c4_counterexample :
    ({ contactName := "J", phoneNumber := "+15551234567",
       objective := "Confirm meeting", scriptStyle := "direct",
       scheduledAt := none, notes := none } : RawBody).contactName.length < 2 ∧
    serverValidate
      { contactName := "J", phoneNumber := "+15551234567",
        objective := "Confirm meeting", scriptStyle := "direct",
        scheduledAt := none, notes := none } = true := by
  constructor
  · decide
  · decide

/-- C4 amended: both validators reject any input whose phoneNumber
fails the regex; the client additionally rejects contactName shorter
than 2 and objective shorter than 3, while the server only rejects the
empty contactName and the empty objective (its minimum lengths are 1,
not 2 and 3). -/
theorem claim_c4_theorem (b : RawBody) :
    (phoneRegexMatch b.phoneNumber = false →
      clientValidate b = false ∧ serverValidate b = false) ∧
    (b.contactName.length < 2 → clientValidate b = false) ∧
    (b.objective.length < 3 → clientValidate b = false) ∧
    (b.contactName.length < 1 → serverValidate b = false) ∧
    (b.objective.length < 1 → serverValidate b = false) := by
  unfold clientValidate serverValidate
  refine ⟨fun h => ⟨?_, ?_⟩, fun h => ?_, fun h => ?_, fun h => ?_, fun h => ?_⟩ <;>
    simp_all

/-- C4 witness: a body failing all the rules is rejected by both
validators. -/
theorem claim_c4_witness :
    clientValidate
      { contactName := "", phoneNumber := "12345", objective := "",
        scriptStyle := "direct", scheduledAt := none, notes := none } = false ∧
    serverValidate
      { contactName := "", phoneNumber := "12345", objective := "",
        scriptStyle := "direct", scheduledAt := none, notes := none } = false :=
  (claim_c4_theorem
    { contactName := "", phoneNumber := "12345", objective := "",
      scriptStyle := "direct", scheduledAt := none, notes := none }).1
    (by decide)

/-- C3: with a nonnegative processing time, the computed delaySeconds
equals max 0 (floor of the millisecond gap over 1000) whenever
scheduledAt is present and parses to a future time, and equals 0
whenever scheduledAt is absent or parses to a time at or before now. -/
theorem claim_c3_theorem (dp : String → Option Int) (now : Int)
    (hnow : 0 ≤ now) (sa : Option String) :
    (∀ s t, sa = some s → dp s = some t → now < t →
      (delaySecondsOf dp now sa : Int) = max 0 ((t - now) / 1000)) ∧
    (sa = none → delaySecondsOf dp now sa = 0) ∧
    (∀ s t, sa = some s → dp s = some t → t ≤ now →
      delaySecondsOf dp now sa = 0) := by
  refine ⟨fun s t hs ht hfut => ?_, fun hs => ?_, fun s t hs ht hpast => ?_⟩
  · subst hs
    unfold delaySecondsOf scheduleTimeOf
    simp only [Option.map_some', ht]
    have ht0 : t ≠ 0 := by omega
    rw [if_pos ⟨ht0, hfut⟩]
    omega
  · subst hs
    rfl
  · subst hs
    unfold delaySecondsOf scheduleTimeOf
    simp only [Option.map_some', ht]
    rw [if_neg]
    rintro ⟨-, hlt⟩
    omega

/-- C3 witness: at a concrete parser, time and schedule string, both
the future and the past cases evaluate as claimed. -/
theorem claim_c3_witness :
    (delaySecondsOf (fun _ => some 5000) 0 (some "x") : Int) =
      max 0 ((5000 - 0) / 1000) ∧
    delaySecondsOf (fun _ => some 5000) 6000 (some "x") = 0 :=
  ⟨(claim_c3_theorem (fun _ => some 5000) 0 (by decide) (some "x")).1
      "x" 5000 rfl rfl (by decide),
   (claim_c3_theorem (fun _ => some 5000) 6000 (by decide) (some "x")).2.2
      "x" 5000 rfl rfl (by decide)⟩

/-- One replacement pass distributes over list append. -/
theorem repChar_append (c : Char) (r : List Char) (x y : List Char) :
    repChar c r (x ++ y) = repChar c r x ++ repChar c r y := by
  induction x with
  | nil => rfl
  | cons d l ih =>
    simp [repChar, ih]

/-- The four sequential passes together act characterwise: every
ampersand, angle bracket and double quote becomes its entity, every
other character is left alone, and no entity introduced by an earlier
pass is touched by a later one. -/
theorem rep_four_entity (l : List Char) :
    repChar '"' "&quot;".data
      (repChar '>' "&gt;".data
        (repChar '<' "&lt;".data
          (repChar '&' "&amp;".data l))) =
    l.flatMap (fun c => (entityOf c).data) := by
  induction l with
  | nil => rfl
  | cons d l ih =>
    show repChar '"' _ (repChar '>' _ (repChar '<' _
      ((if d = '&' then "&amp;".data else [d]) ++ repChar '&' "&amp;".data l))) = _
    rw [repChar_append, repChar_append, repChar_append, ih,
      List.flatMap_cons]
    congr 1
    by_cases h1 : d = '&'
    · subst h1
      decide
    · by_cases h2 : d = '<'
      · subst h2
        decide
      · by_cases h3 : d = '>'
        · subst h3
          decide
        · by_cases h4 : d = '"'
          · subst h4
            decide
          · simp [repChar, entityOf, h1, h2, h3, h4]

/-- The implemented escape equals its per-character reading. -/
theorem escapeForTwiml_eq_spec (s : String) :
    escapeForTwiml s = escapedSpec s :=
  congrArg String.mk (rep_four_entity s.data)

/-- C8: the rendered markup is exactly one Response envelope holding an
optional leading pause of length min delaySeconds 600 (present only
when delaySeconds is nonzero), one spoken-text element per segment
whose text has every ampersand, angle bracket and double quote replaced
by its entity form, and a terminating hangup element. -/
theorem claim_c8_theorem (lines : List String) (delaySeconds : Nat) :
    buildTwiml lines delaySeconds = twimlSpec lines delaySeconds := by
  unfold buildTwiml twimlSpec
  have hmap : ∀ l : List String,
      l.map (fun line =>
        "<Say voice=\"" ++ "Polly.Joanna" ++ "\">" ++ escapeForTwiml line ++ "</Say>") =
      l.map sayElemSpec := by
    intro l
    induction l with
    | nil => rfl
    | cons a t ih =>
      simp only [List.map_cons, ih, sayElemSpec, escapeForTwiml_eq_spec]
      rfl
  dsimp only
  rw [hmap lines]
  by_cases hd : delaySeconds = 0
  · simp [hd]
  · simp [hd, pauseElemSpec]

/-- C9: the preview script is exactly the fixed-order segment list
(introduction with blank-name fallback, objective with
blank-objective fallback, preset tone, fixed five-step flow, preset
closing, then a notes segment exactly when notes are non-blank) joined
with a blank line between segments; five segments when notes are
blank, six otherwise. -/
theorem claim_c9_theorem (form : ClientForm) :
    generateScript form =
      String.intercalate "\n\n" (scriptSegmentsSpec form) ∧
    (scriptSegmentsSpec form).length =
      (if form.notes = "" then 5 else 6) := by
  by_cases hn : form.notes = "" <;>
    simp [generateScript, scriptSegmentsSpec, jsOrStr, hn]

/-- The invalid-date guard of the endpoint can never fire: a NaN
scheduleTime is itself falsy, so the conjunction of truthiness and
NaN-ness is false for every value. -/
theorem schedGuard_false (st : Option (Option Int)) :
    (schedTruthy st && schedIsNaN st) = false := by
  rcases st with _ | (_ | t) <;> simp [schedTruthy, schedIsNaN]

/-- C7: whenever control reaches the provider and the provider
succeeds, the response is a 200 with success true, carries the
provider call identifier, and reports status queued exactly when the
computed delay is positive and in-progress exactly when it is zero. -/
theorem claim_c7_theorem (dp : String → Option Int) (env : Env)
    (now : Int) (b : RawBody) (sid : String)
    (hv : serverValidate b = true)
    (he : envTruthy env = true)
    (hd : delaySecondsOf dp now b.scheduledAt ≤ 600) :
    (POST dp env now (some b) (.ok sid)).success = true ∧
    (POST dp env now (some b) (.ok sid)).callSid = some sid ∧
    (POST dp env now (some b) (.ok sid)).httpStatus = 200 ∧
    ((POST dp env now (some b) (.ok sid)).callStatus = some "queued" ↔
      0 < delaySecondsOf dp now b.scheduledAt) ∧
    ((POST dp env now (some b) (.ok sid)).callStatus = some "in-progress" ↔
      delaySecondsOf dp now b.scheduledAt = 0) := by
  have h4 : ¬ (600 < delaySecondsOf dp now b.scheduledAt) := by omega
  by_cases h0 : delaySecondsOf dp now b.scheduledAt = 0 <;>
    simp [POST, hv, he, schedGuard_false, h4, h0]
  omega

/-- C7 witness: a concrete immediate request with a successful
provider call yields success, the call identifier and in-progress. -/
theorem claim_c7_witness :
    (POST (fun _ => none) envOk 0 (some bodyOk) (.ok "CA1")).success = true ∧
    (POST (fun _ => none) envOk 0 (some bodyOk) (.ok "CA1")).callSid = some "CA1" ∧
    (POST (fun _ => none) envOk 0 (some bodyOk) (.ok "CA1")).httpStatus = 200 ∧
    ((POST (fun _ => none) envOk 0 (some bodyOk) (.ok "CA1")).callStatus =
        some "queued" ↔ 0 < delaySecondsOf (fun _ => none) 0 bodyOk.scheduledAt) ∧
    ((POST (fun _ => none) envOk 0 (some bodyOk) (.ok "CA1")).callStatus =
        some "in-progress" ↔ delaySecondsOf (fun _ => none) 0 bodyOk.scheduledAt = 0) :=
  claim_c7_theorem (fun _ => none) envOk 0 bodyOk "CA1"
    (by decide) (by decide) (by decide)

/-- C2 counterexample: a schedule time 600500 ms after the processing
time is more than 600 seconds in the future, yet the endpoint computes
delaySeconds 600, does not return 422, and does invoke the provider
with a 200 success. -/
theorem claim_c2_counterexample :
    (600500 : Int) - 0 > 600 * 1000 ∧
    delaySecondsOf (fun _ => some 600500) 0 bodySched.scheduledAt = 600 ∧
    (POST (fun _ => some 600500) envOk 0 (some bodySched) (.ok "CA1")).httpStatus = 200 ∧
    (POST (fun _ => some 600500) envOk 0 (some bodySched) (.ok "CA1")).success = true ∧
    (POST (fun _ => some 600500) envOk 0 (some bodySched) (.ok "CA1")).providerCalled = true := by
  refine ⟨by decide, by decide, by decide, by decide, by decide⟩

/-- C2 amended: for a valid, credentialed request whose scheduledAt
parses to at least 601 full seconds (601000 ms) after the processing
time, the endpoint returns 422 with success false and never invokes
the provider. -/
theorem claim_c2_theorem (dp : String → Option Int) (env : Env)
    (now : Int) (b : RawBody) (s : String) (t : Int)
    (provider : ProviderResult)
    (hv : serverValidate b = true) (he : envTruthy env = true)
    (hs : b.scheduledAt = some s) (hp : dp s = some t)
    (hnow : 0 ≤ now) (hfar : 601000 ≤ t - now) :
    (POST dp env now (some b) provider).httpStatus = 422 ∧
    (POST dp env now (some b) provider).success = false ∧
    (POST dp env now (some b) provider).providerCalled = false ∧
    (POST dp env now (some b) provider).providerTwiml = none := by
  have hdelay : delaySecondsOf dp now b.scheduledAt = (t - now).toNat / 1000 := by
    rw [hs]
    unfold delaySecondsOf scheduleTimeOf
    simp only [Option.map_some', hp]
    rw [if_pos ⟨by omega, by omega⟩]
  have hgt : 600 < delaySecondsOf dp now b.scheduledAt := by
    rw [hdelay]
    omega
  simp [POST, hv, he, schedGuard_false, hgt]

/-- C2 witness: a concrete schedule 601 seconds out is rejected with
422 and the provider is never reached. -/
theorem claim_c2_witness :
    (POST (fun _ => some 601000) envOk 0 (some bodySched) (.ok "CA1")).httpStatus = 422 ∧
    (POST (fun _ => some 601000) envOk 0 (some bodySched) (.ok "CA1")).success = false ∧
    (POST (fun _ => some 601000) envOk 0 (some bodySched) (.ok "CA1")).providerCalled = false ∧
    (POST (fun _ => some 601000) envOk 0 (some bodySched) (.ok "CA1")).providerTwiml = none :=
  claim_c2_theorem (fun _ => some 601000) envOk 0 bodySched
    "2026-10-11T12:00:00Z" 601000 (.ok "CA1")
    (by decide) (by decide) rfl rfl (by decide) (by decide)

/-- C5: assuming every strict ISO datetime parses to a valid date, any
request whose scheduledAt is present but fails to parse is rejected by
the schema with a 400, and neither markup building nor the provider
call happens. -/
theorem claim_c5_theorem (dp : String → Option Int) (env : Env)
    (now : Int) (b : RawBody) (s : String) (provider : ProviderResult)
    (hiso : ∀ u, isStrictIso u = true → dp u ≠ none)
    (hs : b.scheduledAt = some s) (hbad : dp s = none) :
    (POST dp env now (some b) provider).httpStatus = 400 ∧
    (POST dp env now (some b) provider).success = false ∧
    (POST dp env now (some b) provider).providerCalled = false ∧
    (POST dp env now (some b) provider).providerTwiml = none := by
  have hfail : isStrictIso s = false := by
    by_contra h
    exact hiso s (by revert h; cases isStrictIso s <;> simp) hbad
  have hsv : serverValidate b = false := by
    unfold serverValidate
    rw [hs]
    simp [hfail]
  simp [POST, hsv]

/-- A date parser that succeeds exactly on strict ISO datetimes, used
to witness the C5 hypothesis. -/
def dpIso : String → Option Int :=
  fun u => if isStrictIso u then some 1 else none

/-- C5 witness: a present but unparseable scheduledAt gets a 400 with
no provider call. -/
theorem claim_c5_witness :
    (POST dpIso envOk 0 (some { bodyOk with scheduledAt := some "soon" })
        (.ok "CA1")).httpStatus = 400 ∧
    (POST dpIso envOk 0 (some { bodyOk with scheduledAt := some "soon" })
        (.ok "CA1")).success = false ∧
    (POST dpIso envOk 0 (some { bodyOk with scheduledAt := some "soon" })
        (.ok "CA1")).providerCalled = false ∧
    (POST dpIso envOk 0 (some { bodyOk with scheduledAt := some "soon" })
        (.ok "CA1")).providerTwiml = none :=
  claim_c5_theorem dpIso envOk 0 { bodyOk with scheduledAt := some "soon" }
    "soon" (.ok "CA1")
    (fun u hu => by simp [dpIso, hu]) rfl (by decide)

end CallingAgent
